import Mathlib

/-!
Verification of the handle-based storage abstraction: the inline single-block
backend (`src/storage/inline_single_storage.rs`) and the unique-handle wrapper
(`src/extension/unique.rs`).

Machine integers (`usize`) are modelled as `Nat`; the only arithmetic the code
performs on sizes is comparison and the subtraction `new_layout.size() -
old_layout.size()`, which is guarded by the precondition `new ≥ old`, so `Nat`
truncated subtraction coincides with the machine subtraction exactly where the
code is defined.  The backend's single inline slot is modelled as a base
address (the address of `self.0`, non-null because it is the address of a live
object) together with a byte map from slot offsets to byte values.
-/

namespace StoragePoc

/-- `core::alloc::Layout`: a size and an alignment, in bytes. -/
structure Layout where
  size : Nat
  align : Nat
  deriving DecidableEq

/-- `core::alloc::AllocError`: the single allocation-failure marker. -/
inductive AllocError where
  | mk
  deriving DecidableEq

/-- State of `InlineSingleStorage<T>` (inline_single_storage.rs:18): one inline
slot.  `base` is the address of the slot (`self.0.get()`), positive because a
Rust reference is never null; `mem` gives the byte stored at each offset of the
slot. -/
structure InlineSingleStorage where
  base : Nat
  base_pos : 0 < base
  mem : Nat → Nat

/-- `InlineSingleStorage::<T>::validate_layout` (inline_single_storage.rs:136):
`own` stands for `Layout::new::<T>()`; the request is accepted iff its
alignment and size are bounded by the slot's. -/
def validate_layout (own layout : Layout) : Except AllocError Unit :=
  if layout.align ≤ own.align ∧ layout.size ≤ own.size then
    Except.ok ()
  else
    Except.error AllocError.mk

/-- `Storage::allocate` for `InlineSingleStorage` (inline_single_storage.rs:29):
validate the layout, then return the unit handle; the slot is untouched. -/
def allocate (own : Layout) (s : InlineSingleStorage) (layout : Layout) :
    Except AllocError (Unit × InlineSingleStorage) :=
  match validate_layout own layout with
  | Except.ok () => Except.ok ((), s)
  | Except.error e => Except.error e

/-- `Storage::deallocate` for `InlineSingleStorage`
(inline_single_storage.rs:35): a no-op. -/
def deallocate (s : InlineSingleStorage) (_handle : Unit) (_layout : Layout) :
    InlineSingleStorage :=
  s

/-- `Storage::resolve` for `InlineSingleStorage` (inline_single_storage.rs:37):
returns the slot's address unconditionally; total (no failure path) and
independent of the slot's contents. -/
def resolve (s : InlineSingleStorage) (_handle : Unit) : Nat :=
  s.base

/-- The condition of the `debug_assert!` in `grow`
(inline_single_storage.rs:51-54): `new_layout.size() >= _old_layout.size()`. -/
def grow_debug_assert (old_layout new_layout : Layout) : Bool :=
  decide (new_layout.size ≥ old_layout.size)

/-- `Storage::grow` for `InlineSingleStorage` (inline_single_storage.rs:45):
validate the new layout, then return the unit handle; nothing moves. -/
def grow (own : Layout) (s : InlineSingleStorage) (_handle : Unit)
    (_old_layout new_layout : Layout) :
    Except AllocError (Unit × InlineSingleStorage) :=
  match validate_layout own new_layout with
  | Except.ok () => Except.ok ((), s)
  | Except.error e => Except.error e

/-- The condition of the `debug_assert!` in `shrink`
(inline_single_storage.rs:67-70), exactly as written in the source:
`_new_layout.size() >= _old_layout.size()` — although its message demands a
smaller size. -/
def shrink_debug_assert (old_layout new_layout : Layout) : Bool :=
  decide (new_layout.size ≥ old_layout.size)

/-- `Storage::shrink` for `InlineSingleStorage` (inline_single_storage.rs:61):
unconditionally returns the unit handle; the slot is untouched. -/
def shrink (s : InlineSingleStorage) (_handle : Unit)
    (_old_layout _new_layout : Layout) :
    Except AllocError (Unit × InlineSingleStorage) :=
  Except.ok ((), s)

/-- `core::ptr::write_bytes` restricted to the slot: write byte `val` at the
`count` offsets starting at `start`. -/
def write_bytes (mem : Nat → Nat) (start val count : Nat) : Nat → Nat :=
  fun i => if start ≤ i ∧ i < start + count then val else mem i

/-- `Storage::allocate_zeroed` for `InlineSingleStorage`
(inline_single_storage.rs:75): validate the layout, then zero the first
`layout.size` bytes of the slot. -/
def allocate_zeroed (own : Layout) (s : InlineSingleStorage) (layout : Layout) :
    Except AllocError (Unit × InlineSingleStorage) :=
  match validate_layout own layout with
  | Except.ok () =>
      Except.ok ((), { s with mem := write_bytes s.mem 0 0 layout.size })
  | Except.error e => Except.error e

/-- The condition of the `debug_assert!` in `grow_zeroed`
(inline_single_storage.rs:95-98): `new_layout.size() >= old_layout.size()`. -/
def grow_zeroed_debug_assert (old_layout new_layout : Layout) : Bool :=
  decide (new_layout.size ≥ old_layout.size)

/-- `Storage::grow_zeroed` for `InlineSingleStorage`
(inline_single_storage.rs:89): validate the new layout, then zero the
`new_layout.size - old_layout.size` bytes starting at offset
`old_layout.size`. -/
def grow_zeroed (own : Layout) (s : InlineSingleStorage) (_handle : Unit)
    (old_layout new_layout : Layout) :
    Except AllocError (Unit × InlineSingleStorage) :=
  match validate_layout own new_layout with
  | Except.ok () =>
      Except.ok ((),
        { s with
            mem := write_bytes s.mem old_layout.size 0
              (new_layout.size - old_layout.size) })
  | Except.error e => Except.error e

/-- Modelled from the spec: `TypedMetadata<T>` (its source,
`extension/typed_metadata.rs`, is not among the provided files).  The spec
describes it as a tagged variant — nothing for fixed-size types, an element
count for slice-like types, a dispatch descriptor for dynamically-dispatched
values. -/
inductive TypedMetadata where
  | unit
  | elementCount (n : Nat)
  | dispatchDescriptor (d : Nat)
  deriving DecidableEq

/-- Modelled from the spec: `TypedHandle<T, H>` (its source,
`extension/typed.rs`, is not among the provided files) pairs a raw handle with
typed metadata. -/
structure TypedHandle (H : Type) where
  handle : H
  metadata : TypedMetadata
  deriving DecidableEq

/-- Modelled from the spec: `TypedHandle::from_raw_parts` lifts a raw handle
plus metadata into a typed handle, storing both components unchanged. -/
def TypedHandle.from_raw_parts {H : Type} (handle : H)
    (metadata : TypedMetadata) : TypedHandle H :=
  { handle := handle, metadata := metadata }

/-- Modelled from the spec: `TypedHandle::to_raw_parts` decomposes a typed
handle into its raw handle and metadata components. -/
def TypedHandle.to_raw_parts {H : Type} (t : TypedHandle H) :
    H × TypedMetadata :=
  (t.handle, t.metadata)

/-- Modelled from the spec: `TypedHandle::coerce` converts a handle of a
concrete type into one of a compatible supertype by recomputing the metadata
(the recomputation, chosen by the type pair, is `recompute`); the raw handle is
kept and no backend is consulted — the function takes no store argument. -/
def TypedHandle.coerce {H : Type} (recompute : TypedMetadata → TypedMetadata)
    (t : TypedHandle H) : TypedHandle H :=
  { handle := t.handle, metadata := recompute t.metadata }

/-- `UniqueHandle<T, H>` (unique.rs:14): a wrapper around one typed handle. -/
structure UniqueHandle (H : Type) where
  inner : TypedHandle H
  deriving DecidableEq

/-- `UniqueHandle::from_raw_parts` (unique.rs:138): delegates to
`TypedHandle::from_raw_parts`. -/
def UniqueHandle.from_raw_parts {H : Type} (handle : H)
    (metadata : TypedMetadata) : UniqueHandle H :=
  { inner := TypedHandle.from_raw_parts handle metadata }

/-- `UniqueHandle::to_raw_parts` (unique.rs:143): delegates to the inner typed
handle's decomposition. -/
def UniqueHandle.to_raw_parts {H : Type} (u : UniqueHandle H) :
    H × TypedMetadata :=
  u.inner.to_raw_parts

/-- `UniqueHandle::coerce` (unique.rs:246): delegates to
`TypedHandle::coerce`. -/
def UniqueHandle.coerce {H : Type} (recompute : TypedMetadata → TypedMetadata)
    (u : UniqueHandle H) : UniqueHandle H :=
  { inner := u.inner.coerce recompute }

/-- `UniqueHandle::resolve_raw` (unique.rs:234) over the inline backend:
delegates the raw handle to the backend's `resolve`. -/
def UniqueHandle.resolve_raw (s : InlineSingleStorage)
    (u : UniqueHandle Unit) : Nat :=
  resolve s u.inner.handle

/-- A concrete backend state used by witnesses: slot at address 1, holding
byte 7 at every offset. -/
def sampleStorage : InlineSingleStorage :=
  { base := 1, base_pos := Nat.one_pos, mem := fun _ => 7 }

/-- C1: for the inline single-block backend with slot layout `own`,
`allocate layout` succeeds with the unit handle iff
`layout.align ≤ own.align ∧ layout.size ≤ own.size`, and otherwise returns
`AllocError`. -/
theorem allocate_fit_iff (own : Layout) (s : InlineSingleStorage)
    (layout : Layout) :
    (allocate own s layout = Except.ok ((), s) ↔
      layout.align ≤ own.align ∧ layout.size ≤ own.size) ∧
    (allocate own s layout = Except.error AllocError.mk ↔
      ¬(layout.align ≤ own.align ∧ layout.size ≤ own.size)) := by
  by_cases hc : layout.align ≤ own.align ∧ layout.size ≤ own.size <;>
    simp [allocate, validate_layout, hc]

/-- C2 (code-bug evidence): at old layout (size 4) and new layout (size 2) —
a genuine shrink, satisfying the claim's precondition `new.size ≤ old.size` —
the `debug_assert!` condition inside `shrink` evaluates to `false`, so a debug
build aborts, even though the release path returns the unit handle
unconditionally.  The assertion's own message demands a *smaller* size while
its condition requires a *larger* one. -/
theorem shrink_assert_fails_on_strict_shrink :
    shrink_debug_assert { size := 4, align := 1 } { size := 2, align := 1 }
      = false ∧
    (∀ s : InlineSingleStorage,
      shrink s () { size := 4, align := 1 } { size := 2, align := 1 }
        = Except.ok ((), s)) := by
  exact ⟨by decide, fun s => rfl⟩

/-- C3: for the inline backend, with `new_layout.size ≥ old_layout.size`,
`grow` succeeds iff the new layout fits the slot layout `own`, and on success
the state returned resolves to the same address as before the call. -/
theorem grow_fit_iff_and_stable_address (own : Layout)
    (s : InlineSingleStorage) (old_layout new_layout : Layout)
    (_hsize : old_layout.size ≤ new_layout.size) :
    ((∃ s', grow own s () old_layout new_layout = Except.ok ((), s')) ↔
      new_layout.align ≤ own.align ∧ new_layout.size ≤ own.size) ∧
    (∀ s', grow own s () old_layout new_layout = Except.ok ((), s') →
      resolve s' () = resolve s ()) := by
  by_cases hc : new_layout.align ≤ own.align ∧ new_layout.size ≤ own.size
  · constructor
    · simp [grow, validate_layout, hc]
    · intro s' h
      simp [grow, validate_layout, hc] at h
      rw [← h]
  · constructor
    · simp [grow, validate_layout, hc]
    · intro s' h
      simp [grow, validate_layout, hc] at h

/-- Witness for C3 at slot layout (4, 4), growing from size 2 to size 4. -/
theorem grow_fit_iff_and_stable_address_witness :
    (({ size := 2, align := 1 } : Layout)).size
        ≤ (({ size := 4, align := 1 } : Layout)).size ∧
    (((∃ s', grow { size := 4, align := 4 } sampleStorage ()
          { size := 2, align := 1 } { size := 4, align := 1 }
            = Except.ok ((), s')) ↔
        (({ size := 4, align := 1 } : Layout)).align
            ≤ (({ size := 4, align := 4 } : Layout)).align ∧
        (({ size := 4, align := 1 } : Layout)).size
            ≤ (({ size := 4, align := 4 } : Layout)).size) ∧
      (∀ s', grow { size := 4, align := 4 } sampleStorage ()
          { size := 2, align := 1 } { size := 4, align := 1 }
            = Except.ok ((), s') →
        resolve s' () = resolve sampleStorage ())) :=
  ⟨by decide,
    grow_fit_iff_and_stable_address { size := 4, align := 4 } sampleStorage
      { size := 2, align := 1 } { size := 4, align := 1 } (by decide)⟩

/-- C4: after a successful `allocate_zeroed layout`, the first `layout.size`
bytes of the slot are zero; after a successful `grow_zeroed old new` with
`new.size ≥ old.size`, the bytes at offsets in `[old.size, new.size)` are zero
and the bytes at offsets below `old.size` are unchanged. -/
theorem zeroed_operations_zero_fill (own : Layout) (s : InlineSingleStorage)
    (layout old_layout new_layout : Layout)
    (hsize : old_layout.size ≤ new_layout.size) :
    (∀ s', allocate_zeroed own s layout = Except.ok ((), s') →
      ∀ i, i < layout.size → s'.mem i = 0) ∧
    (∀ s', grow_zeroed own s () old_layout new_layout = Except.ok ((), s') →
      (∀ i, old_layout.size ≤ i → i < new_layout.size → s'.mem i = 0) ∧
      (∀ i, i < old_layout.size → s'.mem i = s.mem i)) := by
  constructor
  · intro s' h i hi
    by_cases hc : layout.align ≤ own.align ∧ layout.size ≤ own.size
    · simp [allocate_zeroed, validate_layout, hc] at h
      rw [← h]
      simp only [write_bytes]
      rw [if_pos ⟨Nat.zero_le i, by omega⟩]
    · simp [allocate_zeroed, validate_layout, hc] at h
  · intro s' h
    by_cases hc : new_layout.align ≤ own.align ∧ new_layout.size ≤ own.size
    · simp [grow_zeroed, validate_layout, hc] at h
      constructor
      · intro i hlo hhi
        rw [← h]
        simp only [write_bytes]
        rw [if_pos ⟨hlo, by omega⟩]
      · intro i hi
        rw [← h]
        simp only [write_bytes]
        rw [if_neg (by omega)]
    · simp [grow_zeroed, validate_layout, hc] at h

/-- Witness for C4 at slot layout (4, 4), allocating zeroed with layout (3, 1)
and growing zeroed from size 2 to size 4. -/
theorem zeroed_operations_zero_fill_witness :
    (({ size := 2, align := 1 } : Layout)).size
        ≤ (({ size := 4, align := 1 } : Layout)).size ∧
    ((∀ s', allocate_zeroed { size := 4, align := 4 } sampleStorage
          { size := 3, align := 1 } = Except.ok ((), s') →
        ∀ i, i < (({ size := 3, align := 1 } : Layout)).size → s'.mem i = 0) ∧
      (∀ s', grow_zeroed { size := 4, align := 4 } sampleStorage ()
          { size := 2, align := 1 } { size := 4, align := 1 }
            = Except.ok ((), s') →
        (∀ i, (({ size := 2, align := 1 } : Layout)).size ≤ i →
          i < (({ size := 4, align := 1 } : Layout)).size → s'.mem i = 0) ∧
        (∀ i, i < (({ size := 2, align := 1 } : Layout)).size →
          s'.mem i = sampleStorage.mem i))) :=
  ⟨by decide,
    zeroed_operations_zero_fill { size := 4, align := 4 } sampleStorage
      { size := 3, align := 1 } { size := 2, align := 1 }
      { size := 4, align := 1 } (by decide)⟩

/-- C5: `deallocate` is a no-op — the state, hence the slot contents, is
returned unchanged — and afterwards an `allocate` whose layout fits the slot
succeeds. -/
theorem deallocate_noop_then_allocate_succeeds (own : Layout)
    (s : InlineSingleStorage) (h : Unit) (dealloc_layout layout : Layout)
    (halign : layout.align ≤ own.align) (hsize : layout.size ≤ own.size) :
    deallocate s h dealloc_layout = s ∧
    allocate own (deallocate s h dealloc_layout) layout =
      Except.ok ((), deallocate s h dealloc_layout) := by
  refine ⟨rfl, ?_⟩
  simp [allocate, validate_layout, halign, hsize, deallocate]

/-- Witness for C5 at slot layout (4, 4), deallocating under layout (4, 4) and
re-allocating with layout (4, 4). -/
theorem deallocate_noop_then_allocate_succeeds_witness :
    (({ size := 4, align := 1 } : Layout)).align
        ≤ (({ size := 4, align := 4 } : Layout)).align ∧
    (({ size := 4, align := 1 } : Layout)).size
        ≤ (({ size := 4, align := 4 } : Layout)).size ∧
    (deallocate sampleStorage () { size := 4, align := 4 } = sampleStorage ∧
      allocate { size := 4, align := 4 }
          (deallocate sampleStorage () { size := 4, align := 4 })
          { size := 4, align := 1 } =
        Except.ok ((), deallocate sampleStorage () { size := 4, align := 4 })) :=
  ⟨by decide, by decide,
    deallocate_noop_then_allocate_succeeds { size := 4, align := 4 }
      sampleStorage () { size := 4, align := 4 } { size := 4, align := 1 }
      (by decide) (by decide)⟩

/-- C6: `resolve` is a total function (it never fails), it returns the same
address for every handle on the same backend instance, that address is the
backend's slot address and is non-null, and it does not depend on the slot's
contents. -/
theorem resolve_total_constant_nonnull (s : InlineSingleStorage)
    (h h' : Unit) (m : Nat → Nat) :
    resolve s h = resolve s h' ∧
    resolve s h = s.base ∧
    0 < resolve s h ∧
    resolve { s with mem := m } h = resolve s h :=
  ⟨rfl, rfl, s.base_pos, rfl⟩

/-- C7 (spec-modelled for `TypedHandle`): decomposing a unique handle with
`to_raw_parts` and rebuilding with `from_raw_parts` yields identical raw
handle and metadata components — indeed the identical handle — and resolves
to the same address over the inline backend. -/
theorem unique_handle_raw_parts_roundtrip (H : Type) (h : H)
    (m : TypedMetadata) (v : UniqueHandle Unit) (s : InlineSingleStorage) :
    (UniqueHandle.from_raw_parts h m).to_raw_parts = (h, m) ∧
    UniqueHandle.from_raw_parts v.to_raw_parts.1 v.to_raw_parts.2 = v ∧
    UniqueHandle.resolve_raw s
        (UniqueHandle.from_raw_parts v.to_raw_parts.1 v.to_raw_parts.2) =
      UniqueHandle.resolve_raw s v :=
  ⟨rfl, rfl, rfl⟩

/-- C8 (spec-modelled for `TypedHandle`): `coerce` keeps the raw handle
component identical, changes only the metadata (by the type-pair's metadata
recomputation), and — being a pure function of the handle alone, with no store
argument — invokes no backend operation: resolution over any backend state is
unchanged. -/
theorem unique_handle_coerce_identity (H : Type)
    (recompute : TypedMetadata → TypedMetadata) (u : UniqueHandle H)
    (v : UniqueHandle Unit) (s : InlineSingleStorage) :
    (UniqueHandle.coerce recompute u).to_raw_parts.1 = u.to_raw_parts.1 ∧
    (UniqueHandle.coerce recompute u).to_raw_parts.2
        = recompute u.to_raw_parts.2 ∧
    UniqueHandle.resolve_raw s (UniqueHandle.coerce recompute v)
        = UniqueHandle.resolve_raw s v :=
  ⟨rfl, rfl, rfl⟩

/-- C9: `allocate`, `grow`, `shrink` leave the slot's bytes unchanged whenever
they succeed, and `deallocate` leaves them unchanged always; only the zeroed
variants write to the slot. -/
theorem non_zeroing_ops_preserve_slot (own : Layout)
    (s s1 s2 s3 : InlineSingleStorage) (h : Unit)
    (layout old_layout new_layout : Layout)
    (h1 : allocate own s layout = Except.ok ((), s1))
    (h2 : grow own s h old_layout new_layout = Except.ok ((), s2))
    (h3 : shrink s h old_layout new_layout = Except.ok ((), s3)) :
    s1.mem = s.mem ∧ s2.mem = s.mem ∧ s3.mem = s.mem ∧
    (deallocate s h layout).mem = s.mem := by
  refine ⟨?_, ?_, ?_, rfl⟩
  · by_cases hc : layout.align ≤ own.align ∧ layout.size ≤ own.size
    · simp [allocate, validate_layout, hc] at h1
      rw [← h1]
    · simp [allocate, validate_layout, hc] at h1
  · by_cases hc : new_layout.align ≤ own.align ∧ new_layout.size ≤ own.size
    · simp [grow, validate_layout, hc] at h2
      rw [← h2]
    · simp [grow, validate_layout, hc] at h2
  · simp [shrink] at h3
    rw [← h3]

/-- Witness for C9 at slot layout (4, 4): all three fallible operations
succeed and return the state unchanged. -/
theorem non_zeroing_ops_preserve_slot_witness :
    allocate { size := 4, align := 4 } sampleStorage { size := 4, align := 1 }
        = Except.ok ((), sampleStorage) ∧
    grow { size := 4, align := 4 } sampleStorage ()
        { size := 2, align := 1 } { size := 4, align := 1 }
        = Except.ok ((), sampleStorage) ∧
    shrink sampleStorage () { size := 4, align := 1 } { size := 2, align := 1 }
        = Except.ok ((), sampleStorage) ∧
    (sampleStorage.mem = sampleStorage.mem ∧
      sampleStorage.mem = sampleStorage.mem ∧
      sampleStorage.mem = sampleStorage.mem ∧
      (deallocate sampleStorage () { size := 4, align := 1 }).mem
        = sampleStorage.mem) :=
  ⟨rfl, rfl, rfl,
    non_zeroing_ops_preserve_slot { size := 4, align := 4 }
      sampleStorage sampleStorage sampleStorage sampleStorage ()
      { size := 4, align := 1 } { size := 2, align := 1 }
      { size := 4, align := 1 } rfl rfl rfl⟩

/-- C10: under the precondition `new_layout.size ≥ old_layout.size`, the
`debug_assert!` in `grow_zeroed` holds, the zero-fill count
`new_layout.size - old_layout.size` is exact in natural-number arithmetic
(`old.size + (new.size - old.size) = new.size`), and on success exactly the
offsets in `[old.size, old.size + (new.size - old.size))` are written (to
zero) while every other offset is unchanged. -/
theorem grow_zeroed_assert_and_exact_fill (own : Layout)
    (s s' : InlineSingleStorage) (old_layout new_layout : Layout)
    (hsize : old_layout.size ≤ new_layout.size)
    (hok : grow_zeroed own s () old_layout new_layout = Except.ok ((), s')) :
    grow_zeroed_debug_assert old_layout new_layout = true ∧
    old_layout.size + (new_layout.size - old_layout.size) = new_layout.size ∧
    (∀ i, old_layout.size ≤ i →
      i < old_layout.size + (new_layout.size - old_layout.size) →
      s'.mem i = 0) ∧
    (∀ i, ¬(old_layout.size ≤ i ∧
        i < old_layout.size + (new_layout.size - old_layout.size)) →
      s'.mem i = s.mem i) := by
  refine ⟨by simp [grow_zeroed_debug_assert, hsize], by omega, ?_, ?_⟩ <;>
    by_cases hc : new_layout.align ≤ own.align ∧ new_layout.size ≤ own.size
  · simp [grow_zeroed, validate_layout, hc] at hok
    intro i hlo hhi
    rw [← hok]
    simp only [write_bytes]
    rw [if_pos ⟨hlo, hhi⟩]
  · simp [grow_zeroed, validate_layout, hc] at hok
  · simp [grow_zeroed, validate_layout, hc] at hok
    intro i hi
    rw [← hok]
    simp only [write_bytes]
    rw [if_neg hi]
  · simp [grow_zeroed, validate_layout, hc] at hok

/-- Witness for C10 at slot layout (4, 4), growing zeroed from size 2 to
size 4. -/
theorem grow_zeroed_assert_and_exact_fill_witness :
    (({ size := 2, align := 1 } : Layout)).size
        ≤ (({ size := 4, align := 1 } : Layout)).size ∧
    grow_zeroed { size := 4, align := 4 } sampleStorage ()
        { size := 2, align := 1 } { size := 4, align := 1 }
      = Except.ok ((),
          { sampleStorage with
              mem := write_bytes sampleStorage.mem 2 0 2 }) ∧
    (grow_zeroed_debug_assert { size := 2, align := 1 }
        { size := 4, align := 1 } = true ∧
      2 + (4 - 2) = 4 ∧
      (∀ i, 2 ≤ i → i < 2 + (4 - 2) →
        ({ sampleStorage with
            mem := write_bytes sampleStorage.mem 2 0 2 }).mem i = 0) ∧
      (∀ i, ¬(2 ≤ i ∧ i < 2 + (4 - 2)) →
        ({ sampleStorage with
            mem := write_bytes sampleStorage.mem 2 0 2 }).mem i
          = sampleStorage.mem i)) :=
  ⟨by decide, rfl,
    grow_zeroed_assert_and_exact_fill { size := 4, align := 4 }
      sampleStorage
      { sampleStorage with mem := write_bytes sampleStorage.mem 2 0 2 }
      { size := 2, align := 1 } { size := 4, align := 1 }
      (by decide) rfl⟩

end StoragePoc
